import Mathlib

/-!
Verification of the kuangshan mineral-processing report pipeline.

This file gives a shallow embedding, over exact rationals, of:
  * `src/python/workshop_model.py` — the balance calculator
    (`ProcessStream.calculate_metrics`, `WorkshopShiftEntry.calculate_performance`);
  * `src/python/import_accounting.py` — the multi-shift extractor
    (`get_cell`, `get_date_from_filename`, the per-shift loop of `parse_file`);
  * `src/python/import_august.py` — the single-shift extractor's `get_val`,

and proves the stated properties of the specification against it.
Python floats are modelled as exact rationals; Python code that can raise
an exception is modelled with `Except`.
-/

namespace Kuangshan

/-! ## Embedding of `workshop_model.py` -/

/-- Embeds the dataclass `MetalContent` (pb/zn in tons, ag in kg), all fields
defaulting to 0. -/
@[ext]
structure MetalContent where
  pb_ton : ℚ := 0
  zn_ton : ℚ := 0
  ag_kg : ℚ := 0
deriving DecidableEq

/-- Embeds the dataclass `ProcessStream`: one stream (raw ore, concentrate or
tailings) with measured inputs and derived fields, all defaulting to 0. -/
@[ext]
structure ProcessStream where
  wet_weight_ton : ℚ := 0
  moisture_pct : ℚ := 0
  pb_grade_pct : ℚ := 0
  zn_grade_pct : ℚ := 0
  ag_grade_gpt : ℚ := 0
  dry_weight_ton : ℚ := 0
  metal_content : MetalContent := {}
deriving DecidableEq

/-- Embeds `ProcessStream.calculate_metrics`: the Python method mutates the
derived fields in place; here it returns the updated stream. -/
def ProcessStream.calculate_metrics (s : ProcessStream) : ProcessStream :=
  let dry := s.wet_weight_ton * (1 - s.moisture_pct / 100)
  { s with
    dry_weight_ton := dry
    metal_content :=
      { pb_ton := dry * (s.pb_grade_pct / 100)
        zn_ton := dry * (s.zn_grade_pct / 100)
        ag_kg := dry * s.ag_grade_gpt / 1000 } }

/-- Embeds the dataclass `PerformanceMetrics`, all fields defaulting to 0. -/
@[ext]
structure PerformanceMetrics where
  yield_pct : ℚ := 0
  recovery_pb_pct : ℚ := 0
  recovery_zn_pct : ℚ := 0
  recovery_ag_pct : ℚ := 0
  enrichment_ratio_pb : ℚ := 0
deriving DecidableEq

/-- Embeds the dataclass `WorkshopShiftEntry`: one row of the workshop table. -/
@[ext]
structure WorkshopShiftEntry where
  shift_name : String
  raw_ore : ProcessStream := {}
  concentrate : ProcessStream := {}
  tailings : Option ProcessStream := none
  performance : PerformanceMetrics := {}
deriving DecidableEq

/-- Embeds `WorkshopShiftEntry.calculate_performance`.  The Python method first
calls `calculate_metrics` on `raw_ore` and `concentrate` (not on `tailings`),
then overwrites each performance field under its denominator guard, leaving the
field untouched when the guard fails.  Mutation is modelled by returning the
updated entry; the sequential conditional assignments become nested updates. -/
def WorkshopShiftEntry.calculate_performance (e : WorkshopShiftEntry) : WorkshopShiftEntry :=
  let raw := e.raw_ore.calculate_metrics
  let conc := e.concentrate.calculate_metrics
  let perf :=
    if raw.dry_weight_ton > 0 then
      let p1 := { e.performance with
        yield_pct := conc.dry_weight_ton / raw.dry_weight_ton * 100 }
      let p2 :=
        if raw.metal_content.pb_ton > 0 then
          { p1 with recovery_pb_pct :=
              conc.metal_content.pb_ton / raw.metal_content.pb_ton * 100 }
        else p1
      let p3 :=
        if raw.metal_content.zn_ton > 0 then
          { p2 with recovery_zn_pct :=
              conc.metal_content.zn_ton / raw.metal_content.zn_ton * 100 }
        else p2
      let p4 :=
        if raw.metal_content.ag_kg > 0 then
          { p3 with recovery_ag_pct :=
              conc.metal_content.ag_kg / raw.metal_content.ag_kg * 100 }
        else p3
      let p5 :=
        if raw.pb_grade_pct > 0 then
          { p4 with enrichment_ratio_pb :=
              conc.pb_grade_pct / raw.pb_grade_pct }
        else p4
      p5
    else e.performance
  { e with raw_ore := raw, concentrate := conc, performance := perf }

/-- The reference raw-ore stream from the workshop sheet
(wet 128 t, moisture 3 %, Pb 3.75 %, Ag 161 g/t). -/
def refRawOre : ProcessStream :=
  { wet_weight_ton := 128
    moisture_pct := 3
    pb_grade_pct := 375 / 100
    ag_grade_gpt := 161 }

/-! ## Cell grids and the guarded cell readers -/

/-- One spreadsheet cell, as the extractors see it through
`float(df.iloc[r, c])`: `missing` is an empty cell (pandas `NaN`, for which
`pd.notnull` is false and `float` yields `NaN`); `num q` is any value that
`float()` coerces to the finite number `q` (numbers, numeric strings, bools);
`malformed` is a present value on which `float()` raises. -/
inductive Cell where
  | missing : Cell
  | num : ℚ → Cell
  | malformed : Cell
deriving DecidableEq

/-- A pandas DataFrame read with `header=None`: a row-major grid of cells.
`df.iloc[r, c]` raises `IndexError` outside the grid's extent. -/
def Grid := List (List Cell)

/-- Embeds `df.iloc[r, c]` as a partial lookup: `none` models the
`IndexError` raised on an out-of-range address. -/
def cellAt (df : Grid) (r c : ℕ) : Option Cell :=
  (df.get? r).bind (fun row => row.get? c)

/-- Embeds `get_cell` of `import_accounting.py`: the whole body sits in a
`try`, so an out-of-range address, an empty cell (`pd.notnull` false) and a
coercion failure all resolve to `0.0`. -/
def get_cell (df : Grid) (r c : ℕ) : ℚ :=
  match cellAt df r c with
  | none => 0
  | some Cell.missing => 0
  | some (Cell.num q) => q
  | some Cell.malformed => 0

/-- A Python float as produced by `float(val)`: either `NaN` or a finite
value. -/
inductive PyFloat where
  | nan : PyFloat
  | fin : ℚ → PyFloat
deriving DecidableEq

/-- Embeds `get_val` of `import_august.py`.  There `val = df.iloc[row, col]`
is evaluated OUTSIDE the `try`, so an out-of-range address raises
`IndexError` (modelled as `Except.error`); an empty cell holds `NaN` and
`float(NaN)` returns `NaN` without raising; only a coercion failure is caught
and turned into `0.0`. -/
def get_val (df : Grid) (row col : ℕ) : Except String PyFloat :=
  match cellAt df row col with
  | none => Except.error "IndexError"
  | some Cell.missing => Except.ok PyFloat.nan
  | some (Cell.num q) => Except.ok (PyFloat.fin q)
  | some Cell.malformed => Except.ok (PyFloat.fin 0)

/-! ## Date resolution (`get_date_from_filename` of `import_accounting.py`) -/

/-- Does `pat` occur contiguously in `l`?  Embeds Python's `"2026" in s`. -/
def beginsWith : List Char → List Char → Bool
  | [], _ => true
  | _ :: _, [] => false
  | a :: as, b :: bs => a = b && beginsWith as bs

/-- Substring occurrence on character lists. -/
def containsSeq (pat : List Char) : List Char → Bool
  | [] => beginsWith pat []
  | c :: cs => beginsWith pat (c :: cs) || containsSeq pat cs

/-- Leftmost run of eight consecutive ASCII digits, as matched by the regex
`(\d{4})(\d{2})(\d{2})`: at each start position the next eight characters
must all be digits, else the scan advances one character. -/
def find8 : List Char → Option (List Char)
  | [] => none
  | c :: cs =>
    let t := (c :: cs).take 8
    if t.length = 8 ∧ t.all Char.isDigit then some t else find8 cs

/-- Leftmost match of the regex `(\d+)\.(\d+)`: at a start position the match
succeeds iff the maximal digit run there is immediately followed by `.` and
then at least one digit; both groups are greedy (maximal digit runs). -/
def findShort : List Char → Option (List Char × List Char)
  | [] => none
  | c :: cs =>
    if c.isDigit then
      let run := (c :: cs).takeWhile Char.isDigit
      match (c :: cs).drop run.length with
      | '.' :: rest =>
        let day := rest.takeWhile Char.isDigit
        if day.length = 0 then findShort cs else some (run, day)
      | _ => findShort cs
    else findShort cs

/-- Numeric value of a digit string, as Python's `int()`. -/
def digitsToNat (l : List Char) : ℕ :=
  l.foldl (fun n c => 10 * n + (c.toNat - '0'.toNat)) 0

/-- Decimal digits of `n`, most significant first, with explicit fuel so the
recursion is structural (`[]` once `n = 0`; the fuel never runs out when it
starts at least `n`). -/
def natDigitsAux : ℕ → ℕ → List Char
  | 0, _ => []
  | fuel + 1, n =>
    if n = 0 then []
    else natDigitsAux fuel (n / 10) ++ [Nat.digitChar (n % 10)]

/-- Decimal digits of a positive natural, most significant first. -/
def natDigits (n : ℕ) : List Char :=
  natDigitsAux n n

/-- Decimal rendering of a natural number, as Python's `str(int)`. -/
def natToString (n : ℕ) : String :=
  if n = 0 then "0" else String.mk (natDigits n)

/-- Python's `f"{n:02d}"`: zero-pad to (at least) two digits. -/
def pad2 (n : ℕ) : String :=
  if n < 10 then String.mk ['0', Nat.digitChar n] else natToString n

/-- Embeds `get_date_from_filename`.  The Python function takes a file path
and splits it into `os.path.basename` and the parent directory's name; here
the two parts are passed directly.  Default year 2025, switched to 2026 when
the parent directory name contains `"2026"`; an 8-digit run in the filename
wins (with the `2006`→`2026` typo correction), else a short `M.D` date, else
`None`. -/
def get_date_from_filename (filename parent_dir : String) : Option String :=
  let year : ℕ := if containsSeq "2026".data parent_dir.data then 2026 else 2025
  match find8 filename.data with
  | some t =>
    let y := String.mk (t.take 4)
    let m := String.mk ((t.drop 4).take 2)
    let d := String.mk (t.drop 6)
    let y' := if y = "2006" ∧ year = 2026 then "2026" else y
    some (y' ++ "-" ++ m ++ "-" ++ d)
  | none =>
    match findShort filename.data with
    | some (mo, da) =>
      some (natToString year ++ "-" ++ pad2 (digitsToNat mo) ++ "-" ++ pad2 (digitsToNat da))
    | none => none

/-! ## The multi-shift extractor (`parse_file` of `import_accounting.py`) -/

/-- One entry of the module-level `SHIFTS` table: shift label and the first
column of its four-column block. -/
structure ShiftSpec where
  name : String
  col_start : ℕ
deriving DecidableEq

/-- The `SHIFTS` constant: three shifts side by side at column offsets
1, 5, 9. -/
def SHIFTS : List ShiftSpec :=
  [⟨"甲班", 1⟩, ⟨"乙班", 5⟩, ⟨"丙班", 9⟩]

/-- The `rawOre` object of the upload payload. -/
structure RawOrePayload where
  wetWeight : ℚ
  moisture : ℚ
  pbGrade : ℚ
  znGrade : ℚ
  agGrade : ℚ
deriving DecidableEq

/-- The `concentrate` object of the upload payload. -/
structure ConcentratePayload where
  pbGrade : ℚ
  znGrade : ℚ
  agGrade : ℚ
deriving DecidableEq

/-- The `tailings` object of the upload payload. -/
structure TailingsPayload where
  pbGrade : ℚ
  znGrade : ℚ
  agGrade : ℚ
  fineness : ℚ
deriving DecidableEq

/-- The JSON payload `parse_file` posts for one shift block. -/
structure Payload where
  shiftDate : String
  shiftType : String
  runTime : ℚ
  rawOre : RawOrePayload
  concentrate : ConcentratePayload
  tailings : TailingsPayload
deriving DecidableEq

/-- The payload `parse_file` builds for one shift block, with the fixed cell
addresses of the body: row 4 raw ore, row 5 concentrate (its value column is
the wet weight), row 6 tailings (value column is fineness), row 7 moisture;
zinc grades are hard-coded 0 since the sheet has none. -/
def buildPayload (df : Grid) (date : String) (shift : ShiftSpec) : Payload :=
  let col_pb := shift.col_start
  let col_ag := shift.col_start + 1
  let col_val := shift.col_start + 3
  { shiftDate := date
    shiftType := shift.name
    runTime := get_cell df 4 col_val
    rawOre :=
      { wetWeight := get_cell df 5 col_val
        moisture := get_cell df 7 col_val
        pbGrade := get_cell df 4 col_pb
        znGrade := 0
        agGrade := get_cell df 4 col_ag }
    concentrate :=
      { pbGrade := get_cell df 5 col_pb
        znGrade := 0
        agGrade := get_cell df 5 col_ag }
    tailings :=
      { pbGrade := get_cell df 6 col_pb
        znGrade := 0
        agGrade := get_cell df 6 col_ag
        fineness := get_cell df 6 col_val } }

/-- The body of `parse_file`'s loop for one shift block: the presence gate
`if raw_pb <= 0: continue` means no payload is emitted for the block; else
the block's payload is emitted. -/
def processShift (df : Grid) (date : String) (shift : ShiftSpec) : Option Payload :=
  let raw_pb := get_cell df 4 shift.col_start
  if raw_pb ≤ 0 then none else some (buildPayload df date shift)

/-- The payload-producing core of `parse_file`: resolve the date from the
path (skipping the whole file when that fails), then loop over `SHIFTS`
emitting one payload per present block.  Reading the spreadsheet bytes and
posting each payload are the external collaborators around this. -/
def parse_file (filename parent_dir : String) (df : Grid) : List Payload :=
  match get_date_from_filename filename parent_dir with
  | none => []
  | some date => SHIFTS.filterMap (processShift df date)

/-- Canonical `YYYY-MM-DD` shape: exactly four digit characters, a hyphen,
two digits, a hyphen, two digits.  This is the spec's output format, used to
compare the resolver's actual output against it. -/
def isCanonicalDate (s : String) : Bool :=
  match s.data with
  | [y1, y2, y3, y4, h1, m1, m2, h2, d1, d2] =>
    [y1, y2, y3, y4, m1, m2, d1, d2].all Char.isDigit && h1 = '-' && h2 = '-'
  | _ => false

/-! ## Helper lemmas about the balance calculator -/

theorem calculate_metrics_idem (s : ProcessStream) :
    s.calculate_metrics.calculate_metrics = s.calculate_metrics := rfl

theorem calculate_performance_raw_ore (e : WorkshopShiftEntry) :
    e.calculate_performance.raw_ore = e.raw_ore.calculate_metrics := rfl

theorem calculate_performance_concentrate (e : WorkshopShiftEntry) :
    e.calculate_performance.concentrate = e.concentrate.calculate_metrics := rfl

theorem calculate_performance_tailings (e : WorkshopShiftEntry) :
    e.calculate_performance.tailings = e.tailings := rfl

/-- Closed form of the performance fields produced by `calculate_performance`:
each field is its formula under its guard, and the incoming field otherwise. -/
theorem calculate_performance_performance (e : WorkshopShiftEntry) :
    e.calculate_performance.performance =
      { yield_pct :=
          if 0 < e.raw_ore.calculate_metrics.dry_weight_ton then
            e.concentrate.calculate_metrics.dry_weight_ton /
              e.raw_ore.calculate_metrics.dry_weight_ton * 100
          else e.performance.yield_pct
        recovery_pb_pct :=
          if 0 < e.raw_ore.calculate_metrics.dry_weight_ton ∧
             0 < e.raw_ore.calculate_metrics.metal_content.pb_ton then
            e.concentrate.calculate_metrics.metal_content.pb_ton /
              e.raw_ore.calculate_metrics.metal_content.pb_ton * 100
          else e.performance.recovery_pb_pct
        recovery_zn_pct :=
          if 0 < e.raw_ore.calculate_metrics.dry_weight_ton ∧
             0 < e.raw_ore.calculate_metrics.metal_content.zn_ton then
            e.concentrate.calculate_metrics.metal_content.zn_ton /
              e.raw_ore.calculate_metrics.metal_content.zn_ton * 100
          else e.performance.recovery_zn_pct
        recovery_ag_pct :=
          if 0 < e.raw_ore.calculate_metrics.dry_weight_ton ∧
             0 < e.raw_ore.calculate_metrics.metal_content.ag_kg then
            e.concentrate.calculate_metrics.metal_content.ag_kg /
              e.raw_ore.calculate_metrics.metal_content.ag_kg * 100
          else e.performance.recovery_ag_pct
        enrichment_ratio_pb :=
          if 0 < e.raw_ore.calculate_metrics.dry_weight_ton ∧
             0 < e.raw_ore.calculate_metrics.pb_grade_pct then
            e.concentrate.calculate_metrics.pb_grade_pct /
              e.raw_ore.calculate_metrics.pb_grade_pct
          else e.performance.enrichment_ratio_pb } := by
  simp only [WorkshopShiftEntry.calculate_performance]
  by_cases hd : 0 < e.raw_ore.calculate_metrics.dry_weight_ton <;>
    by_cases hpb : 0 < e.raw_ore.calculate_metrics.metal_content.pb_ton <;>
    by_cases hzn : 0 < e.raw_ore.calculate_metrics.metal_content.zn_ton <;>
    by_cases hag : 0 < e.raw_ore.calculate_metrics.metal_content.ag_kg <;>
    by_cases hgr : 0 < e.raw_ore.calculate_metrics.pb_grade_pct <;>
    simp [hd, hpb, hzn, hag, hgr]

/-! ## Claim theorems: the balance calculator -/

/-- C1. After `calculate_metrics`, the derived fields satisfy the dry-weight
and metal-content equations; for nonnegative wet weight and moisture in
[0, 100] the dry weight never exceeds the wet weight; and the reference
input (wet 128, moisture 3, Pb 3.75 %, Ag 161 g/t) yields dry 124.16,
Pb 4.656 t, Ag 19.98976 kg. -/
theorem claim_C1 (s : ProcessStream) :
    (s.calculate_metrics.dry_weight_ton =
        s.calculate_metrics.wet_weight_ton * (1 - s.calculate_metrics.moisture_pct / 100) ∧
      s.calculate_metrics.metal_content.pb_ton =
        s.calculate_metrics.dry_weight_ton * (s.calculate_metrics.pb_grade_pct / 100) ∧
      s.calculate_metrics.metal_content.zn_ton =
        s.calculate_metrics.dry_weight_ton * (s.calculate_metrics.zn_grade_pct / 100) ∧
      s.calculate_metrics.metal_content.ag_kg =
        s.calculate_metrics.dry_weight_ton * s.calculate_metrics.ag_grade_gpt / 1000) ∧
    (0 ≤ s.wet_weight_ton → 0 ≤ s.moisture_pct → s.moisture_pct ≤ 100 →
      s.calculate_metrics.dry_weight_ton ≤ s.wet_weight_ton) ∧
    (refRawOre.calculate_metrics.dry_weight_ton = 124.16 ∧
      refRawOre.calculate_metrics.metal_content.pb_ton = 4.656 ∧
      refRawOre.calculate_metrics.metal_content.ag_kg = 19.98976) := by
  refine ⟨⟨rfl, rfl, rfl, rfl⟩, ?_, ?_, ?_, ?_⟩
  · intro hw hm0 hm100
    simp only [ProcessStream.calculate_metrics]
    have key : 0 ≤ s.wet_weight_ton * (s.moisture_pct / 100) :=
      mul_nonneg hw (div_nonneg hm0 (by norm_num))
    nlinarith [key]
  · norm_num [refRawOre, ProcessStream.calculate_metrics]
  · norm_num [refRawOre, ProcessStream.calculate_metrics]
  · norm_num [refRawOre, ProcessStream.calculate_metrics]

/-- Witness for C1 at the reference raw-ore stream. -/
theorem claim_C1_witness :
    refRawOre.calculate_metrics.dry_weight_ton ≤ refRawOre.wet_weight_ton :=
  (claim_C1 refRawOre).2.1 (by norm_num [refRawOre]) (by norm_num [refRawOre])
    (by norm_num [refRawOre])

/-- C2. Starting from all-zero performance defaults, each performance metric
equals its formula exactly when its strict denominator guards hold and stays
0 otherwise; with a zero raw-ore dry weight all five metrics stay 0. -/
theorem claim_C2 (e : WorkshopShiftEntry) (h : e.performance = {}) :
    (e.calculate_performance.performance.yield_pct =
        if 0 < e.raw_ore.calculate_metrics.dry_weight_ton then
          e.concentrate.calculate_metrics.dry_weight_ton /
            e.raw_ore.calculate_metrics.dry_weight_ton * 100
        else 0) ∧
    (e.calculate_performance.performance.recovery_pb_pct =
        if 0 < e.raw_ore.calculate_metrics.dry_weight_ton ∧
           0 < e.raw_ore.calculate_metrics.metal_content.pb_ton then
          e.concentrate.calculate_metrics.metal_content.pb_ton /
            e.raw_ore.calculate_metrics.metal_content.pb_ton * 100
        else 0) ∧
    (e.calculate_performance.performance.recovery_zn_pct =
        if 0 < e.raw_ore.calculate_metrics.dry_weight_ton ∧
           0 < e.raw_ore.calculate_metrics.metal_content.zn_ton then
          e.concentrate.calculate_metrics.metal_content.zn_ton /
            e.raw_ore.calculate_metrics.metal_content.zn_ton * 100
        else 0) ∧
    (e.calculate_performance.performance.recovery_ag_pct =
        if 0 < e.raw_ore.calculate_metrics.dry_weight_ton ∧
           0 < e.raw_ore.calculate_metrics.metal_content.ag_kg then
          e.concentrate.calculate_metrics.metal_content.ag_kg /
            e.raw_ore.calculate_metrics.metal_content.ag_kg * 100
        else 0) ∧
    (e.calculate_performance.performance.enrichment_ratio_pb =
        if 0 < e.raw_ore.calculate_metrics.dry_weight_ton ∧
           0 < e.raw_ore.calculate_metrics.pb_grade_pct then
          e.concentrate.calculate_metrics.pb_grade_pct /
            e.raw_ore.calculate_metrics.pb_grade_pct
        else 0) ∧
    (e.raw_ore.calculate_metrics.dry_weight_ton = 0 →
      e.calculate_performance.performance = {}) := by
  have hp := calculate_performance_performance e
  rw [h] at hp
  refine ⟨?_, ?_, ?_, ?_, ?_, ?_⟩
  · rw [hp]
  · rw [hp]
  · rw [hp]
  · rw [hp]
  · rw [hp]
  · intro hz
    rw [hp]
    simp [hz]

/-- Witness for C2 at a concrete entry with default performance fields. -/
theorem claim_C2_witness :
    (WorkshopShiftEntry.calculate_performance
        { shift_name := "乙班", raw_ore := refRawOre }).performance.yield_pct =
      if 0 < refRawOre.calculate_metrics.dry_weight_ton then
        (ProcessStream.calculate_metrics {}).dry_weight_ton /
          refRawOre.calculate_metrics.dry_weight_ton * 100
      else 0 :=
  (claim_C2 { shift_name := "乙班", raw_ore := refRawOre } rfl).1

/-- C8 as amended.  After `calculate_performance` the dry-weight and
metal-content equations hold for the raw-ore and concentrate streams, each
computed from that stream's own wet weight, moisture and grades; the
tailings stream is left exactly as it was (it is not recalculated). -/
theorem claim_C8_amended (e : WorkshopShiftEntry) :
    (e.calculate_performance.raw_ore.dry_weight_ton =
        e.calculate_performance.raw_ore.wet_weight_ton *
          (1 - e.calculate_performance.raw_ore.moisture_pct / 100) ∧
      e.calculate_performance.raw_ore.metal_content.pb_ton =
        e.calculate_performance.raw_ore.dry_weight_ton *
          (e.calculate_performance.raw_ore.pb_grade_pct / 100) ∧
      e.calculate_performance.raw_ore.metal_content.zn_ton =
        e.calculate_performance.raw_ore.dry_weight_ton *
          (e.calculate_performance.raw_ore.zn_grade_pct / 100) ∧
      e.calculate_performance.raw_ore.metal_content.ag_kg =
        e.calculate_performance.raw_ore.dry_weight_ton *
          e.calculate_performance.raw_ore.ag_grade_gpt / 1000) ∧
    (e.calculate_performance.concentrate.dry_weight_ton =
        e.calculate_performance.concentrate.wet_weight_ton *
          (1 - e.calculate_performance.concentrate.moisture_pct / 100) ∧
      e.calculate_performance.concentrate.metal_content.pb_ton =
        e.calculate_performance.concentrate.dry_weight_ton *
          (e.calculate_performance.concentrate.pb_grade_pct / 100) ∧
      e.calculate_performance.concentrate.metal_content.zn_ton =
        e.calculate_performance.concentrate.dry_weight_ton *
          (e.calculate_performance.concentrate.zn_grade_pct / 100) ∧
      e.calculate_performance.concentrate.metal_content.ag_kg =
        e.calculate_performance.concentrate.dry_weight_ton *
          e.calculate_performance.concentrate.ag_grade_gpt / 1000) ∧
    e.calculate_performance.tailings = e.tailings :=
  ⟨⟨rfl, rfl, rfl, rfl⟩, ⟨rfl, rfl, rfl, rfl⟩, rfl⟩

/-- Counterexample for C8 as stated: a tailings stream with wet weight 100
and moisture 0 still has dry weight 0 after `calculate_performance`, while
its dry-weight formula gives 100 — the tailings stream is never
recalculated. -/
theorem claim_C8_counterexample :
    ((WorkshopShiftEntry.calculate_performance
          { shift_name := "乙班",
            tailings := some { wet_weight_ton := 100 } }).tailings.map
        ProcessStream.dry_weight_ton = some 0) ∧
    ((WorkshopShiftEntry.calculate_performance
          { shift_name := "乙班",
            tailings := some { wet_weight_ton := 100 } }).tailings.map
        (fun t => t.wet_weight_ton * (1 - t.moisture_pct / 100)) = some 100) ∧
    (0 : ℚ) ≠ 100 := by
  refine ⟨rfl, ?_, by norm_num⟩
  rw [calculate_performance_tailings]
  norm_num

/-- C9. The balance calculator is idempotent: a second `calculate_performance`
changes nothing. -/
theorem claim_C9 (e : WorkshopShiftEntry) :
    e.calculate_performance.calculate_performance = e.calculate_performance := by
  apply WorkshopShiftEntry.ext
  · rfl
  · rfl
  · rfl
  · rfl
  · rw [calculate_performance_performance e.calculate_performance,
      calculate_performance_performance e]
    simp only [calculate_performance_raw_ore, calculate_performance_concentrate,
      calculate_metrics_idem]
    refine PerformanceMetrics.ext ?_ ?_ ?_ ?_ ?_ <;> simp only [] <;>
      split_ifs <;> rfl

/-! ## Helper lemmas about strings, digits and the date resolver -/

theorem mk_data (l : List Char) : (String.mk l).data = l := rfl

theorem data_append_eq (a b : String) : (a ++ b).data = a.data ++ b.data := by
  cases a; cases b; rfl

theorem find8_spec (l t : List Char) (h : find8 l = some t) :
    t.length = 8 ∧ t.all Char.isDigit = true := by
  induction l with
  | nil => simp [find8] at h
  | cons c cs ih =>
    simp only [find8] at h
    split_ifs at h with hc
    · cases h
      exact hc
    · exact ih h

theorem natDigitsAux_zero (fuel : ℕ) : natDigitsAux fuel 0 = [] := by
  cases fuel <;> simp [natDigitsAux]

theorem digitChar_isDigit {m : ℕ} (h : m < 10) : (Nat.digitChar m).isDigit = true := by
  interval_cases m <;> decide

theorem natDigitsAux_two {fuel n : ℕ} (h10 : 10 ≤ n) (h100 : n < 100) (hf : 2 ≤ fuel) :
    natDigitsAux fuel n = [Nat.digitChar (n / 10), Nat.digitChar (n % 10)] := by
  obtain ⟨f, rfl⟩ : ∃ f, fuel = f + 2 := ⟨fuel - 2, by omega⟩
  have hn0 : ¬ n = 0 := by omega
  have hq0 : ¬ n / 10 = 0 := by omega
  have hqq : n / 10 / 10 = 0 := by omega
  have hqm : n / 10 % 10 = n / 10 := by omega
  simp [natDigitsAux, hn0, hq0, hqq, hqm, natDigitsAux_zero]

theorem pad2_two {n : ℕ} (h : n < 100) :
    ∃ c1 c2, (pad2 n).data = [c1, c2] ∧ c1.isDigit = true ∧ c2.isDigit = true := by
  by_cases h10 : n < 10
  · exact ⟨'0', Nat.digitChar n, by simp [pad2, h10, mk_data], rfl, digitChar_isDigit h10⟩
  · refine ⟨Nat.digitChar (n / 10), Nat.digitChar (n % 10), ?_,
      digitChar_isDigit (by omega), digitChar_isDigit (by omega)⟩
    have hne : ¬ n = 0 := by omega
    simp [pad2, h10, natToString, hne, natDigits,
      natDigitsAux_two (by omega : 10 ≤ n) h (by omega : 2 ≤ n), mk_data]

theorem isCanonicalDate_build (s : String) (y m d : List Char)
    (hs : s.data = y ++ '-' :: (m ++ '-' :: d))
    (hy : y.length = 4) (hm : m.length = 2) (hd : d.length = 2)
    (hyd : y.all Char.isDigit = true) (hmd : m.all Char.isDigit = true)
    (hdd : d.all Char.isDigit = true) :
    isCanonicalDate s = true := by
  rcases y with _ | ⟨a, _ | ⟨b, _ | ⟨c, _ | ⟨e, _ | _⟩⟩⟩⟩ <;> simp_all
  rcases m with _ | ⟨f, _ | ⟨g, _ | _⟩⟩ <;> simp_all
  rcases d with _ | ⟨p, _ | ⟨q, _ | _⟩⟩ <;> simp_all
  simp [isCanonicalDate, hs]
  simp_all

/-! ## Claim theorems: date resolution -/

/-- C4. With an 8-digit run in the filename, the resolver returns
`YYYY-MM-DD` built from the leftmost such run's digit groups, replacing a
`2006` year with `2026` exactly when the parent directory name contains
`2026`; in particular `核算表20260127.xlsx` inside a `2026` directory
resolves to `2026-01-27`. -/
theorem claim_C4 (filename parent : String) (t : List Char)
    (h : find8 filename.data = some t) :
    get_date_from_filename filename parent =
      some ((if String.mk (t.take 4) = "2006" ∧ containsSeq "2026".data parent.data = true
              then "2026" else String.mk (t.take 4)) ++ "-" ++
            String.mk ((t.drop 4).take 2) ++ "-" ++ String.mk (t.drop 6)) ∧
    get_date_from_filename "核算表20260127.xlsx" "2026年核算" = some "2026-01-27" := by
  refine ⟨?_, rfl⟩
  by_cases hc : containsSeq "2026".data parent.data = true
  · simp [get_date_from_filename, h, hc]
  · simp [get_date_from_filename, h, hc]

/-- Witness for C4: the year-typo file `核算表20060127.xlsx` inside a `2026`
directory resolves to `2026-01-27`. -/
theorem claim_C4_witness :
    get_date_from_filename "核算表20060127.xlsx" "2026" = some "2026-01-27" := by
  have h := (claim_C4 "核算表20060127.xlsx" "2026" "20060127".data (by rfl)).1
  rw [h]
  rfl

/-- Counterexample for C6 as stated: on the short-date filename `123.4` the
resolver succeeds but returns `2025-123-04`, which has a three-digit month
field and so is not canonical `YYYY-MM-DD`. -/
theorem claim_C6_counterexample :
    get_date_from_filename "123.4" "x" = some "2025-123-04" ∧
    isCanonicalDate "2025-123-04" = false :=
  ⟨rfl, rfl⟩

/-- C6 as amended.  A successful result is canonical `YYYY-MM-DD` whenever it
comes from the 8-digit filename path, and on the short-date path whenever the
matched month and day groups denote values below 100; a short date whose
month or day group denotes 100 or more yields a non-canonical string. -/
theorem claim_C6_amended (filename parent s : String)
    (h : get_date_from_filename filename parent = some s) :
    ((find8 filename.data).isSome = true → isCanonicalDate s = true) ∧
    (∀ mo da, find8 filename.data = none → findShort filename.data = some (mo, da) →
      digitsToNat mo < 100 → digitsToNat da < 100 → isCanonicalDate s = true) := by
  constructor
  · intro h8
    obtain ⟨t, ht⟩ := Option.isSome_iff_exists.mp h8
    obtain ⟨hlen, hdig⟩ := find8_spec _ _ ht
    have hall : ∀ x ∈ t, x.isDigit = true := List.all_eq_true.mp hdig
    simp only [get_date_from_filename, ht, Option.some.injEq] at h
    subst h
    have hmlen : ((t.drop 4).take 2).length = 2 := by
      simp [List.length_take, List.length_drop, hlen]
    have hdlen : (t.drop 6).length = 2 := by simp [List.length_drop, hlen]
    have hmall : ((t.drop 4).take 2).all Char.isDigit = true :=
      List.all_eq_true.mpr fun x hx =>
        hall x (List.drop_subset _ _ (List.take_subset _ _ hx))
    have hdall : (t.drop 6).all Char.isDigit = true :=
      List.all_eq_true.mpr fun x hx => hall x (List.drop_subset _ _ hx)
    by_cases hy : String.mk (t.take 4) = "2006" <;>
      by_cases hcc : containsSeq "2026".data parent.data = true
    · refine isCanonicalDate_build _ "2026".data ((t.drop 4).take 2) (t.drop 6) ?_
        rfl hmlen hdlen (by decide) hmall hdall
      simp [hy, hcc, data_append_eq, mk_data]
    · have hy' : t.take 4 = ['2', '0', '0', '6'] := congrArg String.data hy
      refine isCanonicalDate_build _ (t.take 4) ((t.drop 4).take 2) (t.drop 6) ?_
        (by simp [List.length_take, hlen]) hmlen hdlen
        (List.all_eq_true.mpr fun x hx => hall x (List.take_subset _ _ hx)) hmall hdall
      simp [hy, hy', hcc, data_append_eq, mk_data]
    · refine isCanonicalDate_build _ (t.take 4) ((t.drop 4).take 2) (t.drop 6) ?_
        (by simp [List.length_take, hlen]) hmlen hdlen
        (List.all_eq_true.mpr fun x hx => hall x (List.take_subset _ _ hx)) hmall hdall
      simp [hy, hcc, data_append_eq, mk_data]
    · refine isCanonicalDate_build _ (t.take 4) ((t.drop 4).take 2) (t.drop 6) ?_
        (by simp [List.length_take, hlen]) hmlen hdlen
        (List.all_eq_true.mpr fun x hx => hall x (List.take_subset _ _ hx)) hmall hdall
      simp [hy, hcc, data_append_eq, mk_data]
  · intro mo da h8 hsh hmo hda
    simp only [get_date_from_filename, h8, hsh, Option.some.injEq] at h
    subst h
    obtain ⟨m1, m2, hmdata, hm1, hm2⟩ := pad2_two hmo
    obtain ⟨d1, d2, hddata, hd1, hd2⟩ := pad2_two hda
    have h2026 : natDigitsAux 2026 2026 = ['2', '0', '2', '6'] := by decide
    have h2025 : natDigitsAux 2025 2025 = ['2', '0', '2', '5'] := by decide
    by_cases hc : containsSeq "2026".data parent.data = true
    · refine isCanonicalDate_build _ "2026".data [m1, m2] [d1, d2] ?_ rfl rfl rfl
        (by decide) (by simp [hm1, hm2]) (by simp [hd1, hd2])
      simp [hc, natToString, data_append_eq, mk_data, hmdata, hddata, natDigits, h2026]
    · refine isCanonicalDate_build _ "2025".data [m1, m2] [d1, d2] ?_ rfl rfl rfl
        (by decide) (by simp [hm1, hm2]) (by simp [hd1, hd2])
      simp [hc, natToString, data_append_eq, mk_data, hmdata, hddata, natDigits, h2025]

/-- Witness for C6: the 8-digit path at the reference file yields a canonical
date. -/
theorem claim_C6_witness : isCanonicalDate "2026-01-27" = true :=
  (claim_C6_amended "核算表20260127.xlsx" "x" "2026-01-27" rfl).1 (by rfl)

/-- Counterexample for C7 as stated: the parent directory name `2024年12月`
contains the explicit 4-digit year token `2024`, yet the resolver still uses
the default year 2025 — only the literal token `2026` ever overrides. -/
theorem claim_C7_counterexample :
    get_date_from_filename "核算表8.19.xlsx" "2024年12月" = some "2025-08-19" ∧
    "2025-08-19" ≠ "2024-08-19" :=
  ⟨rfl, by decide⟩

/-- C7 as amended.  With no 8-digit run and a short `M.D` date in the
filename, the resolver uses the matched month and day with the default year
2025, overridden to 2026 exactly when the parent directory name contains the
token `2026` (no other 4-digit year token has any effect); in particular
`核算表8.19.xlsx` with a non-2026 parent resolves to `2025-08-19`. -/
theorem claim_C7_amended (filename parent : String) (mo da : List Char)
    (h8 : find8 filename.data = none)
    (hsh : findShort filename.data = some (mo, da)) :
    get_date_from_filename filename parent =
      some (natToString (if containsSeq "2026".data parent.data = true then 2026 else 2025) ++
        "-" ++ pad2 (digitsToNat mo) ++ "-" ++ pad2 (digitsToNat da)) ∧
    get_date_from_filename "核算表8.19.xlsx" "8月" = some "2025-08-19" := by
  refine ⟨?_, rfl⟩
  simp [get_date_from_filename, h8, hsh]

/-- Witness for C7: a parent directory containing `2026` overrides the
default year on the short-date path. -/
theorem claim_C7_witness :
    get_date_from_filename "8.19.xlsx" "2026年" = some "2026-08-19" := by
  have h := (claim_C7_amended "8.19.xlsx" "2026年" "8".data "19".data (by rfl) (by rfl)).1
  rw [h]
  rfl

/-! ## Claim theorems: the extractors -/

theorem filterMap_gate {α β : Type} (f : α → β) (q : α → ℚ) (l : List α) :
    l.filterMap (fun a => if q a ≤ 0 then none else some (f a)) =
      (l.filter fun a => decide (0 < q a)).map f := by
  induction l with
  | nil => rfl
  | cons a l ih =>
    simp only [List.filterMap_cons, List.filter_cons]
    by_cases h : q a ≤ 0
    · have h' : ¬ 0 < q a := not_lt.mpr h
      simp [h, h', ih]
    · have h' : 0 < q a := not_le.mp h
      simp [h, h', ih]

/-- C3. Once the date resolves, `parse_file` emits a payload for a shift
block exactly when that block's raw-ore lead-grade cell reads positive; a
block whose gate cell reads 0 or negative contributes nothing, while every
other block of the file is still processed. -/
theorem claim_C3 (df : Grid) (fn pd date : String)
    (hdate : get_date_from_filename fn pd = some date) :
    (∀ s ∈ SHIFTS, (processShift df date s).isSome = true ↔ 0 < get_cell df 4 s.col_start) ∧
    parse_file fn pd df =
      (SHIFTS.filter fun s => decide (0 < get_cell df 4 s.col_start)).map
        (buildPayload df date) := by
  constructor
  · intro s _
    simp only [processShift]
    split_ifs with hle
    · constructor
      · intro hfalse
        simp at hfalse
      · intro hlt
        exact absurd hle (not_le.mpr hlt)
    · simp only [Option.isSome_some, true_iff]
      exact not_le.mp hle
  · simp only [parse_file, hdate]
    exact filterMap_gate (buildPayload df date) (fun s => get_cell df 4 s.col_start) SHIFTS

/-- Witness for C3 on the empty grid: every gate cell reads 0, so no shift
block emits a payload. -/
theorem claim_C3_witness :
    parse_file "8.19.xlsx" "8月" ([] : Grid) =
      (SHIFTS.filter fun s => decide (0 < get_cell ([] : Grid) 4 s.col_start)).map
        (buildPayload ([] : Grid) "2025-08-19") :=
  (claim_C3 [] "8.19.xlsx" "8月" "2025-08-19" (by rfl)).2

/-- Counterexample for C5 as stated: on an out-of-range address `get_val`
raises `IndexError` instead of returning `0.0`, and on an empty cell it
returns `NaN` instead of `0.0`. -/
theorem claim_C5_counterexample :
    (get_val ([] : Grid) 0 0 = Except.error "IndexError") ∧
    (get_val ([] : Grid) 0 0 ≠ Except.ok (PyFloat.fin 0)) ∧
    (get_val ([[Cell.missing]] : Grid) 0 0 = Except.ok PyFloat.nan) ∧
    (get_val ([[Cell.missing]] : Grid) 0 0 ≠ Except.ok (PyFloat.fin 0)) := by
  refine ⟨rfl, ?_, rfl, ?_⟩ <;> intro h <;> simp [get_val, cellAt] at h

/-- C5 as amended.  `get_cell` is total and returns `0.0` on out-of-range,
empty and uncoercible cells alike; `get_val` returns `0.0` only for a
present-but-uncoercible cell, raises `IndexError` on an out-of-range address
and returns `NaN` on an empty cell. -/
theorem claim_C5_amended (df : Grid) (r c : ℕ) :
    (cellAt df r c = none ∨ cellAt df r c = some Cell.missing ∨
        cellAt df r c = some Cell.malformed →
      get_cell df r c = 0) ∧
    (cellAt df r c = some Cell.malformed → get_val df r c = Except.ok (PyFloat.fin 0)) ∧
    (cellAt df r c = none → get_val df r c = Except.error "IndexError") ∧
    (cellAt df r c = some Cell.missing → get_val df r c = Except.ok PyFloat.nan) := by
  refine ⟨?_, ?_, ?_, ?_⟩
  · intro h
    rcases h with h | h | h <;> simp [get_cell, h]
  · intro h
    simp [get_val, h]
  · intro h
    simp [get_val, h]
  · intro h
    simp [get_val, h]

/-- Witness for C5 at a one-cell grid holding an uncoercible value. -/
theorem claim_C5_witness :
    get_cell ([[Cell.malformed]] : Grid) 0 0 = 0 ∧
    get_val ([[Cell.malformed]] : Grid) 0 0 = Except.ok (PyFloat.fin 0) :=
  ⟨(claim_C5_amended [[Cell.malformed]] 0 0).1 (Or.inr (Or.inr rfl)),
    (claim_C5_amended [[Cell.malformed]] 0 0).2.1 rfl⟩

/-- C10. A raw-ore lead-grade cell that is empty or uncoercible reads as 0
through `get_cell`, so the presence gate fires and the whole shift block is
skipped with no payload — indistinguishable from a shift that did not run. -/
theorem claim_C10 (df : Grid) (date : String) (s : ShiftSpec) (_hs : s ∈ SHIFTS)
    (h : cellAt df 4 s.col_start = some Cell.missing ∨
      cellAt df 4 s.col_start = some Cell.malformed) :
    get_cell df 4 s.col_start = 0 ∧ processShift df date s = none := by
  have hc : get_cell df 4 s.col_start = 0 := by
    rcases h with h | h <;> simp [get_cell, h]
  refine ⟨hc, ?_⟩
  simp [processShift, hc]

/-- Witness for C10: an uncoercible gate cell for the first shift block. -/
theorem claim_C10_witness :
    get_cell ([[], [], [], [], [Cell.missing, Cell.malformed]] : Grid) 4 1 = 0 ∧
    processShift ([[], [], [], [], [Cell.missing, Cell.malformed]] : Grid)
      "2025-08-19" ⟨"甲班", 1⟩ = none :=
  claim_C10 [[], [], [], [], [Cell.missing, Cell.malformed]] "2025-08-19"
    ⟨"甲班", 1⟩ (by decide) (Or.inr rfl)

end Kuangshan
